import Mathlib

/-!
Shallow embedding of `src/keepassxc/keepassxc_db.py` (class `KeepassxcDatabase`),
a wrapper around the external `keepassxc-cli` tool.

Modelling choices:
* Time is an `Int` (`now` is passed explicitly where Python calls `datetime.now()`);
  `timedelta(seconds = t)` becomes addition of the integer `t`.
* The filesystem and the external process are oracles passed as parameters:
  `pathExists : String → Bool` for `os.path.exists`, `expanduser : String → String`
  for `os.path.expanduser`, and `w : List String → CliOutcome` mapping the full
  argument vector handed to `subprocess.run` to its outcome (an `OSError`, or a
  completed process with stderr/stdout/returncode).
* Python exceptions become an `Except PyExn` result; since the Python object is
  mutated in place even when an exception escapes, every operation returns the
  database state alongside the result (structure `Ret`), plus the trace of
  argument vectors actually handed to `subprocess.run`, in order.
* Python truthiness of `self.inactivity_lock_timeout` is `≠ 0`, and of the
  optional strings `key_file_path` is "some non-empty string".
* `str.splitlines` / `str.strip` are modelled for `"\n"`-separated text, which
  is the only separator relevant to the strings this wrapper handles.
-/

/-- Outcome of one `subprocess.run` call: either the spawn itself fails with
`OSError`, or the process completes with captured stderr, stdout and exit code. -/
inductive CliOutcome where
  | osError : CliOutcome
  | completed (stderr : String) (stdout : String) (returncode : Int) : CliOutcome
deriving DecidableEq, Repr

/-- The `(stderr, stdout, returncode)` triple returned by `run_cli`. -/
structure CliResult where
  stderr : String
  stdout : String
  returncode : Int
deriving DecidableEq, Repr

/-- The Python exceptions the wrapper can raise: the four exception classes
declared in `keepassxc_db.py`, plus Python's builtin `TypeError` (raised e.g.
by `datetime.now() > None` or by `bytes(None, "utf-8")`). -/
inductive PyExn where
  | cliNotFound : PyExn                         -- KeepassxcCliNotFoundError
  | fileNotFound (msg : Option String) : PyExn  -- KeepassxcFileNotFoundError
  | lockedDb : PyExn                            -- KeepassxcLockedDbError
  | cliError (message : String) : PyExn         -- KeepassxcCliError
  | typeError : PyExn                           -- builtin TypeError
deriving DecidableEq, Repr

/-- The mutable fields of a `KeepassxcDatabase` object, as set in `__init__`. -/
structure DB where
  cli : String := "keepassxc-cli"
  cli_checked : Bool := false
  path : Option String := none
  path_checked : Bool := false
  key_file_path : Option String := none
  passphrase : Option String := none
  passphrase_expires_at : Option Int := none
  inactivity_lock_timeout : Int := 0
deriving DecidableEq, Repr

/-- Result of one method call: the Python return value or escaped exception,
the object state afterwards (Python mutates `self` in place, so the state at
the moment an exception escapes is observable), and the list of argument
vectors handed to `subprocess.run`, in order. -/
structure Ret (α : Type) where
  res : Except PyExn α
  db : DB
  trace : List (List String)

instance {α : Type} [DecidableEq α] : DecidableEq (Except PyExn α) :=
  fun a b => match a, b with
  | .error e1, .error e2 =>
    if h : e1 = e2 then .isTrue (by rw [h]) else .isFalse (by simp [h])
  | .ok v1, .ok v2 =>
    if h : v1 = v2 then .isTrue (by rw [h]) else .isFalse (by simp [h])
  | .error _, .ok _ => .isFalse (by simp)
  | .ok _, .error _ => .isFalse (by simp)

/-- Whether the second character list is an initial segment of the first. -/
def starts_with : List Char → List Char → Bool
  | _, [] => true
  | [], _ :: _ => false
  | c :: cs, d :: ds => c = d && starts_with cs ds

/-- Whether the second character list occurs contiguously in the first. -/
def occurs_in : List Char → List Char → Bool
  | [], needle => needle.isEmpty
  | hay@(_ :: rest), needle => starts_with hay needle || occurs_in rest needle

/-- Python `needle in hay` on strings (substring test). -/
def contains_substr (hay needle : String) : Bool :=
  occurs_in hay.data needle.data

/-- Split a character list at every `'\n'` (the split parts, in order;
one more part than there are newlines). -/
def split_newlines : List Char → List (List Char)
  | [] => [[]]
  | c :: cs =>
    if c = '\n' then [] :: split_newlines cs
    else
      match split_newlines cs with
      | [] => [[c]]
      | l :: ls => (c :: l) :: ls

/-- Python `str.splitlines` for `"\n"`-separated text: split on `"\n"` and
drop the empty fragment a terminating newline would otherwise produce. -/
def splitlines (s : String) : List String :=
  let parts := (split_newlines s.data).map String.mk
  if parts.getLast? = some "" then parts.dropLast else parts

/-- Python `str.strip("\n")`: remove every leading and trailing `'\n'`. -/
def strip_newlines (s : String) : String :=
  String.mk (((s.data.dropWhile (fun c => c = '\n')).reverse.dropWhile
    (fun c => c = '\n')).reverse)

/-- The argument-vector construction at the top of `run_cli`:
`cli_args = [self.cli]`, then if `self.key_file_path` is truthy the first
caller argument, the `-k <path>` pair, and the remaining caller arguments;
otherwise all caller arguments unchanged. -/
def build_cli_args (s : DB) (args : List String) : List String :=
  match s.key_file_path with
  | some k =>
      if k ≠ "" then s.cli :: (args.take 1 ++ ["-k", k] ++ args.drop 1)
      else s.cli :: args
  | none => s.cli :: args

/-- `KeepassxcDatabase.run_cli`: build the argument vector, run the process
feeding `bytes(self.passphrase, "utf-8")` on stdin (a `TypeError` if the
cached passphrase is `None`, before any process is spawned), translate
`OSError` to `KeepassxcCliNotFoundError`, and — whenever the process completed,
whatever its exit code — re-arm `passphrase_expires_at` to `now + timeout`
when a truthy (non-zero) inactivity timeout is configured. -/
def run_cli (w : List String → CliOutcome) (now : Int) (s : DB)
    (args : List String) : Ret CliResult :=
  let cli_args := build_cli_args s args
  match s.passphrase with
  | none => ⟨.error .typeError, s, []⟩
  | some _ =>
    match w cli_args with
    | .osError => ⟨.error .cliNotFound, s, [cli_args]⟩
    | .completed stderr stdout returncode =>
      let s' :=
        if s.inactivity_lock_timeout ≠ 0 then
          { s with passphrase_expires_at := some (now + s.inactivity_lock_timeout) }
        else s
      ⟨.ok ⟨stderr, stdout, returncode⟩, s', [cli_args]⟩

/-- `KeepassxcDatabase.is_passphrase_needed`: `True` if no cached passphrase;
otherwise, with a truthy timeout, compare `datetime.now()` against
`passphrase_expires_at` (a `TypeError` when the latter is still `None`) and,
on expiry, clear the passphrase and report `True`; in all other cases `False`. -/
def is_passphrase_needed (now : Int) (s : DB) : Except PyExn (Bool × DB) :=
  match s.passphrase with
  | none => .ok (true, s)
  | some _ =>
    if s.inactivity_lock_timeout ≠ 0 then
      match s.passphrase_expires_at with
      | none => .error .typeError
      | some t =>
        if now > t then .ok (true, { s with passphrase := none })
        else .ok (false, s)
    else .ok (false, s)

/-- `KeepassxcDatabase.verify_and_set_passphrase`: store the candidate
passphrase, run `ls -q <path>`, and on a non-zero exit code clear the
passphrase again and return `False`; on exit code `0` keep it and return
`True`.  (A `None` database path makes `subprocess.run` raise `TypeError`.) -/
def verify_and_set_passphrase (w : List String → CliOutcome) (now : Int)
    (s : DB) (passphrase : String) : Ret Bool :=
  let s1 := { s with passphrase := some passphrase }
  match s1.path with
  | none => ⟨.error .typeError, s1, []⟩
  | some p =>
    let r := run_cli w now s1 ["ls", "-q", p]
    match r.res with
    | .error e => ⟨.error e, r.db, r.trace⟩
    | .ok cr =>
      if cr.returncode ≠ 0 then ⟨.ok false, { r.db with passphrase := none }, r.trace⟩
      else ⟨.ok true, r.db, r.trace⟩

/-- `KeepassxcDatabase.search`: raise `KeepassxcLockedDbError` when the
passphrase is needed; otherwise run `search -q <path> <query>`; on a non-zero
exit code return `[]` when stderr contains `"No results for that"` and raise
`KeepassxcCliError(stderr)` otherwise; on exit code `0` return each stdout
line with its first character (the leading `/`) cut off. -/
def search (w : List String → CliOutcome) (now : Int) (s : DB)
    (query : String) : Ret (List String) :=
  match is_passphrase_needed now s with
  | .error e => ⟨.error e, s, []⟩
  | .ok (true, s1) => ⟨.error .lockedDb, s1, []⟩
  | .ok (false, s1) =>
    match s1.path with
    | none => ⟨.error .typeError, s1, []⟩
    | some p =>
      let r := run_cli w now s1 ["search", "-q", p, query]
      match r.res with
      | .error e => ⟨.error e, r.db, r.trace⟩
      | .ok cr =>
        if cr.returncode ≠ 0 then
          if contains_substr cr.stderr "No results for that" then ⟨.ok [], r.db, r.trace⟩
          else ⟨.error (.cliError cr.stderr), r.db, r.trace⟩
        else ⟨.ok ((splitlines cr.stdout).map (fun l => l.drop 1)), r.db, r.trace⟩

/-- The attribute list iterated by `get_entry_details`, in source order. -/
def entry_attrs : List String := ["UserName", "Password", "URL", "Notes"]

/-- The loop body of `get_entry_details`: for each attribute in turn run
`show -q -a <attr> <path> /<entry>`; abort with the escaped exception or with
`KeepassxcCliError(stderr)` on a non-zero exit code (discarding the partial
dict), else record `out.strip("\n")` under the attribute name and continue. -/
def show_attrs (w : List String → CliOutcome) (now : Int) (p entry : String) :
    DB → List String → Ret (List (String × String))
  | s, [] => ⟨.ok [], s, []⟩
  | s, attr :: rest =>
    let r := run_cli w now s ["show", "-q", "-a", attr, p, "/" ++ entry]
    match r.res with
    | .error e => ⟨.error e, r.db, r.trace⟩
    | .ok cr =>
      if cr.returncode ≠ 0 then ⟨.error (.cliError cr.stderr), r.db, r.trace⟩
      else
        let rec2 := show_attrs w now p entry r.db rest
        ⟨rec2.res.map (fun m => (attr, strip_newlines cr.stdout) :: m),
         rec2.db, r.trace ++ rec2.trace⟩

/-- `KeepassxcDatabase.get_entry_details`: raise `KeepassxcLockedDbError` when
the passphrase is needed, then retrieve UserName, Password, URL and Notes
sequentially via `show_attrs` (the Python dict, in insertion order, is the
returned association list). -/
def get_entry_details (w : List String → CliOutcome) (now : Int) (s : DB)
    (entry : String) : Ret (List (String × String)) :=
  match is_passphrase_needed now s with
  | .error e => ⟨.error e, s, []⟩
  | .ok (true, s1) => ⟨.error .lockedDb, s1, []⟩
  | .ok (false, s1) =>
    match s1.path with
    | none => ⟨.error .typeError, s1, []⟩
    | some p => show_attrs w now p entry s1 entry_attrs

/-- `KeepassxcDatabase.change_path`: set `path` to the user-expanded new path,
reset the path-checked flag, clear the cached passphrase and its expiry. -/
def change_path (expanduser : String → String) (s : DB) (new_path : String) : DB :=
  { s with path := some (expanduser new_path), path_checked := false,
           passphrase := none, passphrase_expires_at := none }

/-- `KeepassxcDatabase.change_inactivity_lock_timeout`: set the timeout and
clear the cached passphrase and its expiry. -/
def change_inactivity_lock_timeout (s : DB) (secs : Int) : DB :=
  { s with inactivity_lock_timeout := secs,
           passphrase := none, passphrase_expires_at := none }

/-- `KeepassxcDatabase.initialize` (named `initializeDb` here because
`initialize` is a Lean keyword): store the timeout; check the CLI is
invocable (`cliOk` is the outcome of `can_execute_cli`), raising
`KeepassxcCliNotFoundError` otherwise; on a changed path, store it, reset the
path-checked flag and clear the cached passphrase; check the database file
exists, raising `KeepassxcFileNotFoundError` otherwise; finally resolve and
check a truthy key-file path, or clear the stored one when absent. -/
def initializeDb (cliOk : Bool) (pathExists : String → Bool)
    (expanduser : String → String) (s : DB) (path : String)
    (inactivity_lock_timeout : Int) (key_file_path : Option String) : Ret Unit :=
  let s := { s with inactivity_lock_timeout := inactivity_lock_timeout }
  if !s.cli_checked && !cliOk then ⟨.error .cliNotFound, s, []⟩
  else
    let s := { s with cli_checked := true }
    let s :=
      if some path ≠ s.path then
        { s with path := some path, path_checked := false, passphrase := none }
      else s
    if !s.path_checked && !pathExists path then ⟨.error (.fileNotFound none), s, []⟩
    else
      let s := { s with path_checked := true }
      match key_file_path with
      | some k =>
        if k ≠ "" then
          let ek := expanduser k
          if pathExists ek then ⟨.ok (), { s with key_file_path := some ek }, []⟩
          else ⟨.error (.fileNotFound (some ("Key file not found: " ++ ek))), s, []⟩
        else ⟨.ok (), { s with key_file_path := none }, []⟩
      | none => ⟨.ok (), { s with key_file_path := none }, []⟩

/-! Helper lemmas shared by the claim theorems. -/

/-- The state update `run_cli` performs after a completed process: re-arm the
expiry when a truthy timeout is configured, otherwise leave the state alone. -/
def expiry_upd (now : Int) (s : DB) : DB :=
  if s.inactivity_lock_timeout ≠ 0 then
    { s with passphrase_expires_at := some (now + s.inactivity_lock_timeout) }
  else s

theorem expiry_upd_passphrase (now : Int) (s : DB) :
    (expiry_upd now s).passphrase = s.passphrase := by
  unfold expiry_upd; split <;> rfl

theorem expiry_upd_key_file_path (now : Int) (s : DB) :
    (expiry_upd now s).key_file_path = s.key_file_path := by
  unfold expiry_upd; split <;> rfl

theorem expiry_upd_cli (now : Int) (s : DB) :
    (expiry_upd now s).cli = s.cli := by
  unfold expiry_upd; split <;> rfl

theorem expiry_upd_path (now : Int) (s : DB) :
    (expiry_upd now s).path = s.path := by
  unfold expiry_upd; split <;> rfl

theorem expiry_upd_timeout (now : Int) (s : DB) :
    (expiry_upd now s).inactivity_lock_timeout = s.inactivity_lock_timeout := by
  unfold expiry_upd; split <;> rfl

theorem build_cli_args_expiry_upd (now : Int) (s : DB) (args : List String) :
    build_cli_args (expiry_upd now s) args = build_cli_args s args := by
  unfold build_cli_args
  rw [expiry_upd_key_file_path, expiry_upd_cli]

theorem run_cli_completed (w : List String → CliOutcome) (now : Int) (s : DB)
    (args : List String) (pp stderr stdout : String) (rc : Int)
    (hpp : s.passphrase = some pp)
    (hw : w (build_cli_args s args) = .completed stderr stdout rc) :
    run_cli w now s args =
      ⟨.ok ⟨stderr, stdout, rc⟩, expiry_upd now s, [build_cli_args s args]⟩ := by
  simp only [run_cli, expiry_upd, hpp, hw]

theorem run_cli_os_error (w : List String → CliOutcome) (now : Int) (s : DB)
    (args : List String) (pp : String)
    (hpp : s.passphrase = some pp)
    (hw : w (build_cli_args s args) = .osError) :
    run_cli w now s args = ⟨.error .cliNotFound, s, [build_cli_args s args]⟩ := by
  simp only [run_cli, hpp, hw]

theorem is_passphrase_needed_false (now : Int) (s s1 : DB)
    (h : is_passphrase_needed now s = .ok (false, s1)) :
    s1 = s ∧ ∃ pp, s.passphrase = some pp := by
  cases hpp : s.passphrase with
  | none => simp [is_passphrase_needed, hpp] at h
  | some pp =>
    refine ⟨?_, pp, hpp ▸ rfl⟩
    by_cases ht : s.inactivity_lock_timeout = 0
    · simp [is_passphrase_needed, hpp, ht] at h
      exact h.symm
    · cases hex : s.passphrase_expires_at with
      | none => simp [is_passphrase_needed, hpp, ht, hex] at h
      | some t =>
        by_cases hnow : now > t
        · simp [is_passphrase_needed, hpp, ht, hex, hnow] at h
        · simp [is_passphrase_needed, hpp, ht, hex, hnow] at h
          exact h.symm

/-! ## C1 -/

/-- C1: `is_passphrase_needed` returns `True` iff no passphrase is cached, or a
non-zero inactivity timeout is configured and the current time is past
`passphrase_expires_at`; whenever it reports locked, the resulting state holds
no cached passphrase, so every subsequent call on that unchanged state also
reports locked; and with timeout `0` and a cached passphrase it returns
`False` regardless of elapsed time. -/
theorem C1_is_passphrase_needed_spec (now now2 : Int) (s s1 : DB) (b : Bool)
    (h : is_passphrase_needed now s = .ok (b, s1)) :
    (b = true ↔ s.passphrase = none ∨
      (s.inactivity_lock_timeout ≠ 0 ∧
        ∃ t, s.passphrase_expires_at = some t ∧ now > t)) ∧
    (b = true → s1.passphrase = none ∧
      is_passphrase_needed now2 s1 = .ok (true, s1)) ∧
    (s.inactivity_lock_timeout = 0 → s.passphrase ≠ none →
      b = false ∧ s1 = s) := by
  cases hpp : s.passphrase with
  | none =>
    simp [is_passphrase_needed, hpp] at h
    obtain ⟨rfl, rfl⟩ := h
    simp [is_passphrase_needed, hpp]
  | some pp =>
    by_cases ht : s.inactivity_lock_timeout = 0
    · simp [is_passphrase_needed, hpp, ht] at h
      obtain ⟨rfl, rfl⟩ := h
      simp [hpp, ht]
    · cases hex : s.passphrase_expires_at with
      | none => simp [is_passphrase_needed, hpp, ht, hex] at h
      | some t =>
        by_cases hnow : now > t
        · simp [is_passphrase_needed, hpp, ht, hex, hnow] at h
          obtain ⟨rfl, rfl⟩ := h
          refine ⟨by simp [hpp, ht, hex, hnow], fun _ => ⟨rfl, by simp [is_passphrase_needed]⟩,
            fun h0 => absurd h0 ht⟩
        · simp [is_passphrase_needed, hpp, ht, hex, hnow] at h
          obtain ⟨rfl, rfl⟩ := h
          refine ⟨by simp [hpp, ht, hex, hnow], by simp, fun h0 => absurd h0 ht⟩

/-- A session with a cached passphrase, a 5-second timeout and an expiry in
the past, observed at time 20: used to witness C1. -/
def c1db : DB :=
  { passphrase := some "p", passphrase_expires_at := some 10,
    inactivity_lock_timeout := 5 }

/-- The state `c1db` after the expired passphrase has been cleared. -/
def c1db2 : DB :=
  { passphrase := none, passphrase_expires_at := some 10,
    inactivity_lock_timeout := 5 }

/-- Witness for C1 at the concrete expired session `c1db`. -/
theorem C1_witness :
    c1db2.passphrase = none ∧
    is_passphrase_needed 30 c1db2 = .ok (true, c1db2) :=
  (C1_is_passphrase_needed_spec 20 30 c1db c1db2 true (by decide)).2.1 rfl

/-! ## C2 -/

/-- C2: `verify_and_set_passphrase` runs the `ls` listing command; when the
process exits `0` the candidate passphrase ends up cached and the call returns
`True`; when it exits non-zero the passphrase is not cached (and
`is_passphrase_needed` subsequently reports locked), the call returns `False`,
and no exception escapes. -/
theorem C2_verify_and_set_passphrase_spec (w : List String → CliOutcome)
    (now now2 : Int) (s : DB) (pp p stderr stdout : String) (rc : Int)
    (hp : s.path = some p)
    (hw : w (build_cli_args { s with passphrase := some pp } ["ls", "-q", p]) =
      .completed stderr stdout rc) :
    ((verify_and_set_passphrase w now s pp).trace =
      [build_cli_args { s with passphrase := some pp } ["ls", "-q", p]]) ∧
    (rc = 0 → (verify_and_set_passphrase w now s pp).res = .ok true ∧
      (verify_and_set_passphrase w now s pp).db.passphrase = some pp) ∧
    (rc ≠ 0 → (verify_and_set_passphrase w now s pp).res = .ok false ∧
      (verify_and_set_passphrase w now s pp).db.passphrase = none ∧
      is_passphrase_needed now2 (verify_and_set_passphrase w now s pp).db =
        .ok (true, (verify_and_set_passphrase w now s pp).db)) := by
  have hrun := run_cli_completed w now { s with passphrase := some pp }
    ["ls", "-q", p] pp stderr stdout rc rfl hw
  rw [hp] at hrun
  refine ⟨?_, fun h0 => ?_, fun h0 => ?_⟩
  · rcases eq_or_ne rc 0 with h0 | h0 <;>
      simp [verify_and_set_passphrase, hp, hrun, h0]
  · subst h0
    simp [verify_and_set_passphrase, hp, hrun, expiry_upd_passphrase]
  · simp [verify_and_set_passphrase, hp, hrun, h0, is_passphrase_needed]

/-- A configured, still-locked session used to witness C2 and C9. -/
def c2db : DB := { cli_checked := true, path := some "/db", path_checked := true }

/-- Witness for C2 at a concrete session whose `ls` invocation exits `1`. -/
theorem C2_witness :
    (verify_and_set_passphrase
        (fun _ => .completed "Invalid credentials" "" 1) 0 c2db "pw").res = .ok false ∧
    (verify_and_set_passphrase
        (fun _ => .completed "Invalid credentials" "" 1) 0 c2db "pw").db.passphrase = none ∧
    is_passphrase_needed 7
        (verify_and_set_passphrase
          (fun _ => .completed "Invalid credentials" "" 1) 0 c2db "pw").db =
      .ok (true, (verify_and_set_passphrase
          (fun _ => .completed "Invalid credentials" "" 1) 0 c2db "pw").db) :=
  (C2_verify_and_set_passphrase_spec (fun _ => .completed "Invalid credentials" "" 1)
    0 7 c2db "pw" "/db" "Invalid credentials" "" 1 rfl rfl).2.2 (by decide)

/-! ## C3 -/

theorem is_passphrase_needed_none (now : Int) (s : DB) (h : s.passphrase = none) :
    is_passphrase_needed now s = .ok (true, s) := by
  simp [is_passphrase_needed, h]

theorem initializeDb_db_passphrase (cliOk : Bool) (pe : String → Bool)
    (eu : String → String) (s : DB) (path : String) (t : Int) (kfp : Option String) :
    (initializeDb cliOk pe eu s path t kfp).db.passphrase =
      if (!s.cli_checked && !cliOk) = true then s.passphrase
      else if some path ≠ s.path then none else s.passphrase := by
  unfold initializeDb
  cases hb : s.cli_checked <;> cases cliOk <;> repeat' split
  all_goals simp_all
  all_goals repeat' split
  all_goals simp_all

/-- A configured, unlocked session (cached passphrase, 5-second timeout) used
for the C3 counterexample and witness. -/
def c3db : DB :=
  { cli_checked := true, path := some "/db", path_checked := true,
    passphrase := some "pw", passphrase_expires_at := some 100,
    inactivity_lock_timeout := 5 }

/-- Counterexample to C3: calling `initializeDb` with the same path `"/db"`
but a different timeout (`5` changed to `0`) succeeds, keeps the cached
passphrase, and `is_passphrase_needed` afterwards returns `False` (unlocked)
even at an arbitrarily late time — the claim says every timeout-altering
configuration change forces the locked state. -/
theorem C3_counterexample :
    c3db.inactivity_lock_timeout = 5 ∧
    (initializeDb true (fun _ => true) id c3db "/db" 0 none).res = .ok () ∧
    (initializeDb true (fun _ => true) id c3db "/db" 0 none).db.passphrase = some "pw" ∧
    is_passphrase_needed 1000000
        (initializeDb true (fun _ => true) id c3db "/db" 0 none).db =
      .ok (false, (initializeDb true (fun _ => true) id c3db "/db" 0 none).db) := by
  decide

/-- C3 amended: `change_path` and `change_inactivity_lock_timeout`
unconditionally clear the cached passphrase, and `initializeDb` with a changed
path clears it (provided the CLI check passes), so `is_passphrase_needed`
returns `True` immediately after those changes; but `initializeDb` with an
unchanged path keeps the cached passphrase even when the timeout differs. -/
theorem C3_amended_config_changes (eu : String → String) (pe : String → Bool)
    (cliOk : Bool) (s : DB) (np path : String) (secs t now : Int)
    (kfp : Option String) :
    ((change_path eu s np).passphrase = none ∧
      is_passphrase_needed now (change_path eu s np) =
        .ok (true, change_path eu s np)) ∧
    ((change_inactivity_lock_timeout s secs).passphrase = none ∧
      is_passphrase_needed now (change_inactivity_lock_timeout s secs) =
        .ok (true, change_inactivity_lock_timeout s secs)) ∧
    (some path ≠ s.path → (s.cli_checked = true ∨ cliOk = true) →
      (initializeDb cliOk pe eu s path t kfp).db.passphrase = none ∧
      is_passphrase_needed now (initializeDb cliOk pe eu s path t kfp).db =
        .ok (true, (initializeDb cliOk pe eu s path t kfp).db)) ∧
    (some path = s.path →
      (initializeDb cliOk pe eu s path t kfp).db.passphrase = s.passphrase) := by
  refine ⟨⟨rfl, is_passphrase_needed_none now _ rfl⟩,
    ⟨rfl, is_passphrase_needed_none now _ rfl⟩, fun hne hcli => ?_, fun hsame => ?_⟩
  · have hpp : (initializeDb cliOk pe eu s path t kfp).db.passphrase = none := by
      rw [initializeDb_db_passphrase]
      rcases hcli with h | h <;> simp [h, hne]
    exact ⟨hpp, is_passphrase_needed_none now _ hpp⟩
  · rw [initializeDb_db_passphrase]
    simp [hsame]

/-- Witness for the amended C3: re-initialization of `c3db` with the changed
path `"/other"` clears the cached passphrase and leaves the session locked. -/
theorem C3_witness :
    (initializeDb true (fun _ => true) id c3db "/other" 7 none).db.passphrase = none ∧
    is_passphrase_needed 3 (initializeDb true (fun _ => true) id c3db "/other" 7 none).db =
      .ok (true, (initializeDb true (fun _ => true) id c3db "/other" 7 none).db) :=
  (C3_amended_config_changes id (fun _ => true) true c3db "/x" "/other" 0 7 3
    none).2.2.1 (by decide) (Or.inr rfl)

/-! ## C4 -/

/-- C4: whenever `run_cli` completes a process — whatever its exit code — a
configured non-zero inactivity timeout makes it reset `passphrase_expires_at`
to `now + timeout`; with timeout `0` the expiry field is never touched. -/
theorem C4_run_cli_expiry (w : List String → CliOutcome) (now : Int) (s : DB)
    (args : List String) (cr : CliResult)
    (h : (run_cli w now s args).res = .ok cr) :
    (s.inactivity_lock_timeout ≠ 0 →
      (run_cli w now s args).db.passphrase_expires_at =
        some (now + s.inactivity_lock_timeout)) ∧
    (s.inactivity_lock_timeout = 0 →
      (run_cli w now s args).db.passphrase_expires_at =
        s.passphrase_expires_at) := by
  cases hpp : s.passphrase with
  | none => simp [run_cli, hpp] at h
  | some pp =>
    cases hw : w (build_cli_args s args) with
    | osError => simp [run_cli, hpp, hw] at h
    | completed e o rc =>
      have hrun := run_cli_completed w now s args pp e o rc hpp hw
      rw [hrun]
      constructor <;> intro ht <;> simp [expiry_upd, ht]

/-- An unlocked session with a 30-second timeout, for the C4 witness. -/
def c4db : DB :=
  { path := some "/db", passphrase := some "pw", inactivity_lock_timeout := 30 }

/-- Witness for C4: a failing invocation (exit code 2) still re-arms the
expiry of `c4db` to `now + 30`. -/
theorem C4_witness :
    (run_cli (fun _ => .completed "err" "" 2) 100 c4db
        ["ls", "-q", "/db"]).db.passphrase_expires_at =
      some (100 + c4db.inactivity_lock_timeout) :=
  (C4_run_cli_expiry (fun _ => .completed "err" "" 2) 100 c4db
    ["ls", "-q", "/db"] ⟨"err", "", 2⟩ (by decide)).1 (by decide)

/-! ## C5 -/

/-- C5: `search` raises `KeepassxcLockedDbError` when the session is locked;
on a non-zero exit code it returns `[]` without raising when stderr indicates
no results, and otherwise raises `KeepassxcCliError` carrying the raw stderr
text unmodified. -/
theorem C5_search_error_handling (w : List String → CliOutcome) (now : Int)
    (s s1 : DB) (q p stderr stdout : String) (rc : Int) :
    (is_passphrase_needed now s = .ok (true, s1) →
      (search w now s q).res = .error .lockedDb) ∧
    (is_passphrase_needed now s = .ok (false, s1) → s1.path = some p →
      w (build_cli_args s1 ["search", "-q", p, q]) = .completed stderr stdout rc →
      rc ≠ 0 →
      (contains_substr stderr "No results for that" = true →
        (search w now s q).res = .ok []) ∧
      (contains_substr stderr "No results for that" = false →
        (search w now s q).res = .error (.cliError stderr))) := by
  constructor
  · intro h
    simp [search, h]
  · intro h hp hw hrc
    obtain ⟨rfl, pp, hpp⟩ := is_passphrase_needed_false now s s1 h
    have hrun := run_cli_completed w now s1 ["search", "-q", p, q]
      pp stderr stdout rc hpp hw
    constructor <;> intro hcs <;> simp [search, h, hp, hrun, hrc, hcs]

/-- A configured, unlocked session (timeout disabled) for the C5/C7 witnesses. -/
def c5db : DB :=
  { cli_checked := true, path := some "/db", path_checked := true,
    passphrase := some "pw" }

/-- Witness for C5: searching `c5db` when the tool exits `1` with a
"No results for that" message yields the empty list. -/
theorem C5_witness :
    (search (fun _ => .completed "Error: No results for that query." "" 1)
        1 c5db "gh").res = .ok [] :=
  ((C5_search_error_handling
      (fun _ => .completed "Error: No results for that query." "" 1)
      1 c5db c5db "gh" "/db" "Error: No results for that query." "" 1).2
    (by decide) (by decide) rfl (by decide)).1 (by decide)

/-! ## C7 -/

/-- C7: on exit code `0`, `search` maps every line of the tool's stdout to an
entry name by removing exactly the first character of the line. -/
theorem C7_search_line_parsing (w : List String → CliOutcome) (now : Int)
    (s s1 : DB) (q p stderr stdout : String)
    (hu : is_passphrase_needed now s = .ok (false, s1))
    (hp : s1.path = some p)
    (hw : w (build_cli_args s1 ["search", "-q", p, q]) =
      .completed stderr stdout 0) :
    (search w now s q).res = .ok ((splitlines stdout).map (fun l => l.drop 1)) ∧
    ∀ i, (hi : i < (splitlines stdout).length) →
      ((splitlines stdout).map (fun l => l.drop 1)).get ⟨i, by simpa using hi⟩ =
        ((splitlines stdout).get ⟨i, hi⟩).drop 1 := by
  obtain ⟨rfl, pp, hpp⟩ := is_passphrase_needed_false now s s1 hu
  have hrun := run_cli_completed w now s1 ["search", "-q", p, q]
    pp stderr stdout 0 hpp hw
  exact ⟨by simp [search, hu, hp, hrun], fun i hi => by simp⟩

/-- The world for the C7 witness: the search command prints one entry line. -/
def c7w : List String → CliOutcome := fun _ => .completed "" "/Personal/GitHub\n" 0

/-- Witness for C7: the raw line `/Personal/GitHub` comes back as
`Personal/GitHub`. -/
theorem C7_witness :
    (search c7w 1 c5db "gh").res =
      .ok ((splitlines "/Personal/GitHub\n").map (fun l => l.drop 1)) ∧
    (splitlines "/Personal/GitHub\n").map (fun l => l.drop 1) =
      ["Personal/GitHub"] :=
  ⟨(C7_search_line_parsing c7w 1 c5db c5db "gh" "/db" "" "/Personal/GitHub\n"
      (by decide) (by decide) rfl).1, by decide⟩

/-! ## C6 -/

theorem show_attrs_cons (w : List String → CliOutcome) (now : Int)
    (p entry : String) (s : DB) (attr : String) (rest : List String)
    (pp e o : String) (rc : Int)
    (hpp : s.passphrase = some pp)
    (hw : w (build_cli_args s ["show", "-q", "-a", attr, p, "/" ++ entry]) =
      .completed e o rc) :
    show_attrs w now p entry s (attr :: rest) =
      if rc ≠ 0 then
        ⟨.error (.cliError e), expiry_upd now s,
          [build_cli_args s ["show", "-q", "-a", attr, p, "/" ++ entry]]⟩
      else
        ⟨(show_attrs w now p entry (expiry_upd now s) rest).res.map
            (fun m => (attr, strip_newlines o) :: m),
          (show_attrs w now p entry (expiry_upd now s) rest).db,
          build_cli_args s ["show", "-q", "-a", attr, p, "/" ++ entry] ::
            (show_attrs w now p entry (expiry_upd now s) rest).trace⟩ := by
  have hrun := run_cli_completed w now s ["show", "-q", "-a", attr, p, "/" ++ entry]
    pp e o rc hpp hw
  rcases eq_or_ne rc 0 with h | h <;> simp [show_attrs, hrun, h]

/-- Modelled from the spec: the value the specification promises for each
attribute, "its value with the trailing newline stripped" — i.e. one final
newline removed, and nothing else.  Kept separate from `strip_newlines` (which
embeds the source's `out.strip("\n")`) so the two can be compared. -/
def spec_strip_trailing_newline (s : String) : String :=
  if s.data.getLast? = some '\n' then String.mk s.data.dropLast else s

/-- A configured, unlocked session (timeout disabled) for the C6 theorems. -/
def c6db : DB :=
  { cli_checked := true, path := some "/db", path_checked := true,
    passphrase := some "pw" }

/-- Counterexample to C6: when a `show` invocation prints `"\nu\n"`, the code
stores `"u"` (Python `strip("\n")` removes the leading newline too), which is
not the spec's "value with the trailing newline stripped" (`"\nu"`). -/
theorem C6_counterexample :
    (get_entry_details (fun _ => .completed "" "\nu\n" 0) 0 c6db "e").res =
      .ok [("UserName", "u"), ("Password", "u"), ("URL", "u"), ("Notes", "u")] ∧
    spec_strip_trailing_newline "\nu\n" ≠ "u" := by
  decide

/-- C6 amended: when unlocked, `get_entry_details` issues exactly 4 sequential
sub-invocations, one per attribute in the fixed order UserName, Password, URL,
Notes; if any sub-invocation exits non-zero the whole call raises
`KeepassxcCliError` and no partial mapping is returned; if all four succeed it
returns a mapping from each attribute name to its value with leading and
trailing newline characters stripped (Python `strip("\n")`). -/
theorem C6_amended_get_entry_details (w : List String → CliOutcome) (now : Int)
    (s s1 : DB) (entry p e1 o1 e2 o2 e3 o3 e4 o4 : String) (r1 r2 r3 r4 : Int)
    (hu : is_passphrase_needed now s = .ok (false, s1))
    (hp : s1.path = some p)
    (hw1 : w (build_cli_args s1 ["show", "-q", "-a", "UserName", p, "/" ++ entry]) =
      .completed e1 o1 r1)
    (hw2 : w (build_cli_args s1 ["show", "-q", "-a", "Password", p, "/" ++ entry]) =
      .completed e2 o2 r2)
    (hw3 : w (build_cli_args s1 ["show", "-q", "-a", "URL", p, "/" ++ entry]) =
      .completed e3 o3 r3)
    (hw4 : w (build_cli_args s1 ["show", "-q", "-a", "Notes", p, "/" ++ entry]) =
      .completed e4 o4 r4) :
    (r1 = 0 → r2 = 0 → r3 = 0 → r4 = 0 →
      (get_entry_details w now s entry).res =
        .ok [("UserName", strip_newlines o1), ("Password", strip_newlines o2),
             ("URL", strip_newlines o3), ("Notes", strip_newlines o4)] ∧
      (get_entry_details w now s entry).trace =
        [build_cli_args s1 ["show", "-q", "-a", "UserName", p, "/" ++ entry],
         build_cli_args s1 ["show", "-q", "-a", "Password", p, "/" ++ entry],
         build_cli_args s1 ["show", "-q", "-a", "URL", p, "/" ++ entry],
         build_cli_args s1 ["show", "-q", "-a", "Notes", p, "/" ++ entry]]) ∧
    (r1 ≠ 0 → (get_entry_details w now s entry).res = .error (.cliError e1)) ∧
    (r1 = 0 → r2 ≠ 0 →
      (get_entry_details w now s entry).res = .error (.cliError e2)) ∧
    (r1 = 0 → r2 = 0 → r3 ≠ 0 →
      (get_entry_details w now s entry).res = .error (.cliError e3)) ∧
    (r1 = 0 → r2 = 0 → r3 = 0 → r4 ≠ 0 →
      (get_entry_details w now s entry).res = .error (.cliError e4)) := by
  obtain ⟨rfl, pp, hpp⟩ := is_passphrase_needed_false now s s1 hu
  have hpp1 : (expiry_upd now s1).passphrase = some pp := by
    rw [expiry_upd_passphrase]; exact hpp
  have hpp2 : (expiry_upd now (expiry_upd now s1)).passphrase = some pp := by
    rw [expiry_upd_passphrase]; exact hpp1
  have hpp3 :
      (expiry_upd now (expiry_upd now (expiry_upd now s1))).passphrase = some pp := by
    rw [expiry_upd_passphrase]; exact hpp2
  have hw2' : w (build_cli_args (expiry_upd now s1)
      ["show", "-q", "-a", "Password", p, "/" ++ entry]) = .completed e2 o2 r2 := by
    rw [build_cli_args_expiry_upd]; exact hw2
  have hw3' : w (build_cli_args (expiry_upd now (expiry_upd now s1))
      ["show", "-q", "-a", "URL", p, "/" ++ entry]) = .completed e3 o3 r3 := by
    rw [build_cli_args_expiry_upd, build_cli_args_expiry_upd]; exact hw3
  have hw4' : w (build_cli_args (expiry_upd now (expiry_upd now (expiry_upd now s1)))
      ["show", "-q", "-a", "Notes", p, "/" ++ entry]) = .completed e4 o4 r4 := by
    rw [build_cli_args_expiry_upd, build_cli_args_expiry_upd,
      build_cli_args_expiry_upd]; exact hw4
  have h1 := show_attrs_cons w now p entry s1 "UserName" ["Password", "URL", "Notes"]
    pp e1 o1 r1 hpp hw1
  have h2 := show_attrs_cons w now p entry (expiry_upd now s1) "Password"
    ["URL", "Notes"] pp e2 o2 r2 hpp1 hw2'
  have h3 := show_attrs_cons w now p entry (expiry_upd now (expiry_upd now s1)) "URL"
    ["Notes"] pp e3 o3 r3 hpp2 hw3'
  have h4 := show_attrs_cons w now p entry
    (expiry_upd now (expiry_upd now (expiry_upd now s1))) "Notes" [] pp e4 o4 r4
    hpp3 hw4'
  have hb2 : build_cli_args (expiry_upd now s1)
      ["show", "-q", "-a", "Password", p, "/" ++ entry] =
      build_cli_args s1 ["show", "-q", "-a", "Password", p, "/" ++ entry] :=
    build_cli_args_expiry_upd now s1 _
  have hb3 : build_cli_args (expiry_upd now (expiry_upd now s1))
      ["show", "-q", "-a", "URL", p, "/" ++ entry] =
      build_cli_args s1 ["show", "-q", "-a", "URL", p, "/" ++ entry] := by
    rw [build_cli_args_expiry_upd, build_cli_args_expiry_upd]
  have hb4 : build_cli_args (expiry_upd now (expiry_upd now (expiry_upd now s1)))
      ["show", "-q", "-a", "Notes", p, "/" ++ entry] =
      build_cli_args s1 ["show", "-q", "-a", "Notes", p, "/" ++ entry] := by
    rw [build_cli_args_expiry_upd, build_cli_args_expiry_upd, build_cli_args_expiry_upd]
  have hmain : get_entry_details w now s1 entry =
      show_attrs w now p entry s1 entry_attrs := by
    simp [get_entry_details, hu, hp]
  refine ⟨fun z1 z2 z3 z4 => ?_, fun nz1 => ?_, fun z1 nz2 => ?_,
    fun z1 z2 nz3 => ?_, fun z1 z2 z3 nz4 => ?_⟩
  · subst z1; subst z2; subst z3; subst z4
    rw [if_neg (by simp)] at h1 h2 h3 h4
    rw [hmain]
    simp only [entry_attrs]
    rw [h1, h2, h3, h4]
    simp [show_attrs, Except.map, hb2, hb3, hb4]
  · rw [if_pos nz1] at h1
    rw [hmain]
    simp only [entry_attrs]
    rw [h1]
  · subst z1
    rw [if_neg (by simp)] at h1
    rw [if_pos nz2] at h2
    rw [hmain]
    simp only [entry_attrs]
    rw [h1, h2]
    simp [Except.map]
  · subst z1; subst z2
    rw [if_neg (by simp)] at h1 h2
    rw [if_pos nz3] at h3
    rw [hmain]
    simp only [entry_attrs]
    rw [h1, h2, h3]
    simp [Except.map]
  · subst z1; subst z2; subst z3
    rw [if_neg (by simp)] at h1 h2 h3
    rw [if_pos nz4] at h4
    rw [hmain]
    simp only [entry_attrs]
    rw [h1, h2, h3, h4]
    simp [Except.map]

/-- The world for the C6 witness: each attribute query prints its own value. -/
def c6w : List String → CliOutcome := fun args =>
  if args.contains "UserName" then .completed "" "alice\n" 0
  else if args.contains "Password" then .completed "" "hunter2\n" 0
  else if args.contains "URL" then .completed "" "https://example.org\n" 0
  else .completed "" "some notes\n" 0

/-- Witness for the amended C6: all four lookups succeed on `c6db`, giving the
four stripped values and exactly the four `show` invocations in order. -/
theorem C6_witness :
    (get_entry_details c6w 0 c6db "e").res =
      .ok [("UserName", strip_newlines "alice\n"),
           ("Password", strip_newlines "hunter2\n"),
           ("URL", strip_newlines "https://example.org\n"),
           ("Notes", strip_newlines "some notes\n")] ∧
    (get_entry_details c6w 0 c6db "e").trace =
      [build_cli_args c6db ["show", "-q", "-a", "UserName", "/db", "/" ++ "e"],
       build_cli_args c6db ["show", "-q", "-a", "Password", "/db", "/" ++ "e"],
       build_cli_args c6db ["show", "-q", "-a", "URL", "/db", "/" ++ "e"],
       build_cli_args c6db ["show", "-q", "-a", "Notes", "/db", "/" ++ "e"]] :=
  (C6_amended_get_entry_details c6w 0 c6db c6db "e" "/db"
    "" "alice\n" "" "hunter2\n" "" "https://example.org\n" "" "some notes\n"
    0 0 0 0 (by decide) rfl (by decide) (by decide) (by decide) (by decide)).1
    rfl rfl rfl rfl

/-! ## C8 -/

/-- C8: with a configured (truthy) key-file path, the constructed argument
vector is the tool name, the first caller argument, the `-k <path>` pair, then
the remaining caller arguments in order; with no key file it is the tool name
followed by the caller arguments unchanged. -/
theorem C8_key_file_injection (s : DB) (a k : String)
    (rest args : List String) :
    (s.key_file_path = some k → k ≠ "" →
      build_cli_args s (a :: rest) = s.cli :: a :: "-k" :: k :: rest) ∧
    (s.key_file_path = none → build_cli_args s args = s.cli :: args) := by
  constructor
  · intro hk hne
    simp [build_cli_args, hk, hne]
  · intro hk
    simp [build_cli_args, hk]

/-- A session configured with a key file, for the C8 witness. -/
def c8db : DB := { key_file_path := some "/kf" }

/-- Witness for C8: the `-k /kf` pair lands right after the subcommand. -/
theorem C8_witness :
    build_cli_args c8db ("ls" :: ["-q", "/db"]) =
      c8db.cli :: "ls" :: "-k" :: "/kf" :: ["-q", "/db"] :=
  (C8_key_file_injection c8db "ls" "/kf" ["-q", "/db"] []).1 rfl (by decide)

/-! ## C9 -/

/-- C9: `verify_and_set_passphrase` stores the candidate passphrase before
invoking the tool, so when the spawn fails (`OSError`), the escaping
`KeepassxcCliNotFoundError` leaves the unverified candidate cached, and a
subsequent `is_passphrase_needed` (with the timeout disabled, or within a
previously armed expiry window) reports unlocked although no authentication
ever succeeded. -/
theorem C9_unlock_not_atomic_on_spawn_failure (w : List String → CliOutcome)
    (now now2 : Int) (s : DB) (pp p : String)
    (hp : s.path = some p)
    (hw : w (build_cli_args { s with passphrase := some pp } ["ls", "-q", p]) =
      .osError) :
    (verify_and_set_passphrase w now s pp).res = .error .cliNotFound ∧
    (verify_and_set_passphrase w now s pp).db.passphrase = some pp ∧
    (s.inactivity_lock_timeout = 0 →
      is_passphrase_needed now2 (verify_and_set_passphrase w now s pp).db =
        .ok (false, (verify_and_set_passphrase w now s pp).db)) ∧
    (∀ t, s.inactivity_lock_timeout ≠ 0 → s.passphrase_expires_at = some t →
      ¬now2 > t →
      is_passphrase_needed now2 (verify_and_set_passphrase w now s pp).db =
        .ok (false, (verify_and_set_passphrase w now s pp).db)) := by
  have hrun := run_cli_os_error w now { s with passphrase := some pp }
    ["ls", "-q", p] pp rfl hw
  rw [hp] at hrun
  refine ⟨?_, ?_, fun ht => ?_, fun t ht hex hnow => ?_⟩
  · simp [verify_and_set_passphrase, hp, hrun]
  · simp [verify_and_set_passphrase, hp, hrun]
  · simp only [ht] at hrun
    simp [verify_and_set_passphrase, hp, hrun, is_passphrase_needed, ht]
  · simp only [hex] at hrun
    simp [verify_and_set_passphrase, hp, hrun, is_passphrase_needed, ht, hex, hnow]

/-- Witness for C9: with the tool binary missing, unlocking `c2db` raises, yet
the candidate passphrase stays cached and the session then reports unlocked. -/
theorem C9_witness :
    (verify_and_set_passphrase (fun _ => .osError) 0 c2db "guess").res =
      .error .cliNotFound ∧
    (verify_and_set_passphrase (fun _ => .osError) 0 c2db "guess").db.passphrase =
      some "guess" :=
  ⟨(C9_unlock_not_atomic_on_spawn_failure (fun _ => .osError) 0 9 c2db "guess" "/db"
      rfl rfl).1,
   (C9_unlock_not_atomic_on_spawn_failure (fun _ => .osError) 0 9 c2db "guess" "/db"
      rfl rfl).2.1⟩

/-! ## C10 -/

/-- C10: a session unlocked while the timeout was `0` (so
`passphrase_expires_at` was never armed), re-initialized with the same path
but a non-zero timeout, keeps its cached passphrase — and the next
`is_passphrase_needed` call raises `TypeError` (Python compares
`datetime.now()` against `None`) instead of returning a boolean. -/
theorem C10_reinit_nonzero_timeout_type_error (cliOk : Bool)
    (pe : String → Bool) (eu : String → String) (s : DB) (p pp : String)
    (t now : Int)
    (hpp : s.passphrase = some pp)
    (hex : s.passphrase_expires_at = none)
    (ht0 : s.inactivity_lock_timeout = 0)
    (hp : s.path = some p)
    (hpc : s.path_checked = true)
    (hcc : s.cli_checked = true)
    (ht : t ≠ 0) :
    (initializeDb cliOk pe eu s p t none).res = .ok () ∧
    (initializeDb cliOk pe eu s p t none).db.passphrase = some pp ∧
    is_passphrase_needed now (initializeDb cliOk pe eu s p t none).db =
      .error .typeError := by
  have hdb : initializeDb cliOk pe eu s p t none =
      ⟨.ok (), ({ s with inactivity_lock_timeout := t, cli_checked := true, path_checked := true, key_file_path := none } : DB), []⟩ := by
    simp [initializeDb, hcc, hp, hpc]
  rw [hdb]
  exact ⟨rfl, hpp, by simp [is_passphrase_needed, hpp, hex, ht]⟩

/-- The C10 starting state: unlocked with timeout `0`, expiry never armed. -/
def c10db : DB :=
  { cli_checked := true, path := some "/db", path_checked := true,
    passphrase := some "pw" }

/-- Witness for C10: re-initializing `c10db` with the same path and timeout 60
keeps the passphrase, and the next lock check raises `TypeError`. -/
theorem C10_witness :
    (initializeDb true (fun _ => true) id c10db "/db" 60 none).res = .ok () ∧
    (initializeDb true (fun _ => true) id c10db "/db" 60 none).db.passphrase =
      some "pw" ∧
    is_passphrase_needed 5 (initializeDb true (fun _ => true) id c10db "/db" 60
        none).db = .error .typeError :=
  C10_reinit_nonzero_timeout_type_error true (fun _ => true) id c10db "/db" "pw"
    60 5 rfl rfl rfl rfl rfl rfl (by decide)
